import Mathlib

/-!
Shallow embedding of `src/design_patterns/factory_design_principle.ts`.

The TypeScript file defines a Factory Method example:
* interface `MailTemplate { generate(): string }` with concrete classes
  `WelcomeMailTemplate` and `NewsLetterMailTemplate`;
* abstract class `Mailer` with abstract `generateMailTemplate()` and a
  concrete `sendMail()` that concatenates a fixed prefix with the produced
  template's `generate()` result;
* concrete creators `WelcomeMailGenerator` and `NewsLetterMailGenerator`;
* `clientCode(mailer)` which prints `mailer.sendMail()` via `console.log`;
* a fixed top-level entry sequence printing three lines.

The only observable state of the program is standard output, modelled as the
list of lines written so far (`console.log` appends its argument as one
line).  Methods whose TypeScript bodies perform no output are additionally
given state-passing versions (suffix `S`) that thread the output state
explicitly, so that absence of side effects is a provable statement rather
than a modelling assumption.
-/

/-- The `MailTemplate` interface: a value implementing it is determined by
the text its nullary, effect-free `generate()` method returns. -/
structure MailTemplate where
  generate : String

/-- `class WelcomeMailTemplate implements MailTemplate`:
`generate()` returns the literal welcome text. -/
def WelcomeMailTemplate : MailTemplate :=
  { generate := "Welcome aboard! Thanks for signing up!" }

/-- `class NewsLetterMailTemplate implements MailTemplate`:
`generate()` returns the literal newsletter text. -/
def NewsLetterMailTemplate : MailTemplate :=
  { generate := "Please enjoy our newsletter!" }

/-- `abstract class Mailer`: the abstract factory method
`generateMailTemplate()` is the datum each concrete subclass supplies. -/
structure Mailer where
  generateMailTemplate : MailTemplate

/-- `Mailer.sendMail()`: its body is
`const mailTemplate = this.generateMailTemplate();` followed by a `return`
of the template literal interpolating `mailTemplate.generate()` after the
fixed prefix `Sending the following mail : `. -/
def Mailer.sendMail (m : Mailer) : String :=
  let mailTemplate := m.generateMailTemplate
  "Sending the following mail : " ++ mailTemplate.generate

/-- `class WelcomeMailGenerator extends Mailer`:
`generateMailTemplate()` returns `new WelcomeMailTemplate()`. -/
def WelcomeMailGenerator : Mailer :=
  { generateMailTemplate := WelcomeMailTemplate }

/-- `class NewsLetterMailGenerator extends Mailer`:
`generateMailTemplate()` returns `new NewsLetterMailTemplate()`. -/
def NewsLetterMailGenerator : Mailer :=
  { generateMailTemplate := NewsLetterMailTemplate }

/-- `console.log(s)`: appends `s` as one line to standard output. -/
def consoleLog (out : List String) (s : String) : List String :=
  out ++ [s]

/-- `function clientCode(mailer: Mailer) { console.log(mailer.sendMail()); }`
It returns no value; its sole effect is the write, so it is modelled as a
transformer of the output state. -/
def clientCode (out : List String) (mailer : Mailer) : List String :=
  consoleLog out mailer.sendMail

/-- The fixed top-level entry sequence of the script:
`clientCode(new WelcomeMailGenerator());
 console.log("---");
 clientCode(new NewsLetterMailGenerator());` -/
def entryOutput : List String :=
  let out1 := clientCode [] WelcomeMailGenerator
  let out2 := consoleLog out1 "---"
  clientCode out2 NewsLetterMailGenerator

/-- Rendering of the output state as the actual text written to standard
output: `console.log` terminates each written string with a newline. -/
def stdoutOf : List String → String
  | [] => ""
  | l :: ls => l ++ "\n" ++ stdoutOf ls

/-- State-passing version of `MailTemplate.generate`: the TypeScript bodies
of both concrete `generate()` methods are a single `return` of a literal and
contain no write to the console, so the output state passes through. -/
def MailTemplate.generateS (t : MailTemplate) (out : List String) :
    String × List String :=
  (t.generate, out)

/-- State-passing version of `Mailer.sendMail`: its body calls
`this.generateMailTemplate()`, then `generate()` on the result, and returns
the concatenation; it contains no write to the console. -/
def Mailer.sendMailS (m : Mailer) (out : List String) :
    String × List String :=
  let mailTemplate := m.generateMailTemplate
  let g := mailTemplate.generateS out
  ("Sending the following mail : " ++ g.1, g.2)

theorem stdoutOf_append (a b : List String) :
    stdoutOf (a ++ b) = stdoutOf a ++ stdoutOf b := by
  induction a with
  | nil => simp [stdoutOf]
  | cons l ls ih => simp [stdoutOf, ih, String.append_assoc]

/-- C1: for every Mailer, `sendMail()` returns the fixed prefix
`Sending the following mail : ` concatenated with the string returned by
the produced template's `generate()`; in particular
`WelcomeMailGenerator.sendMail()` is the welcome line and
`NewsLetterMailGenerator.sendMail()` is the newsletter line. -/
theorem sendMail_prefix_and_variants :
    (∀ m : Mailer,
      m.sendMail =
        "Sending the following mail : " ++ m.generateMailTemplate.generate) ∧
    WelcomeMailGenerator.sendMail =
      "Sending the following mail : Welcome aboard! Thanks for signing up!" ∧
    NewsLetterMailGenerator.sendMail =
      "Sending the following mail : Please enjoy our newsletter!" :=
  ⟨fun _ => rfl, rfl, rfl⟩

/-- C2: the fixed entry sequence writes exactly three lines, in order: the
welcome line, the literal divider `---`, and the newsletter line, and
nothing else. -/
theorem entry_sequence_output :
    entryOutput =
      ["Sending the following mail : Welcome aboard! Thanks for signing up!",
       "---",
       "Sending the following mail : Please enjoy our newsletter!"] ∧
    entryOutput.length = 3 :=
  ⟨rfl, rfl⟩

/-- C3: for every Mailer and every prior output state, `clientCode` writes
exactly one line, that Mailer's `sendMail()` result; on the rendered
standard-output text this appends exactly `sendMail()` followed by a
newline, with no other effect and no return value (the result is the new
output state alone). -/
theorem clientCode_writes_sendMail_line :
    ∀ (out : List String) (m : Mailer),
      clientCode out m = out ++ [m.sendMail] ∧
      stdoutOf (clientCode out m) = stdoutOf out ++ (m.sendMail ++ "\n") := by
  intro out m
  refine ⟨rfl, ?_⟩
  simp [clientCode, consoleLog, stdoutOf_append, stdoutOf]

/-- C4: each Product variant's `generate()` takes no input and returns its
fixed literal string: the welcome text for `WelcomeMailTemplate` and the
newsletter text for `NewsLetterMailTemplate` (as pure values, identical on
every call). -/
theorem generate_fixed_literals :
    WelcomeMailTemplate.generate = "Welcome aboard! Thanks for signing up!" ∧
    NewsLetterMailTemplate.generate = "Please enjoy our newsletter!" :=
  ⟨rfl, rfl⟩

/-- C5: `sendMail()` is entirely determined by the produced Product's
`generate()` text: any two Mailers whose products generate the same text
have equal `sendMail()` results, and `sendMail()` factors as the fixed
prefix concatenated with the produced product's `generate()`. -/
theorem sendMail_determined_by_product :
    (∀ m1 m2 : Mailer,
      m1.generateMailTemplate.generate = m2.generateMailTemplate.generate →
        m1.sendMail = m2.sendMail) ∧
    (∀ m : Mailer,
      m.sendMail =
        "Sending the following mail : " ++ m.generateMailTemplate.generate) := by
  refine ⟨?_, fun _ => rfl⟩
  intro m1 m2 h
  simp [Mailer.sendMail, h]

/-- Witness for C5: `WelcomeMailGenerator` and an ad-hoc Mailer bound to a
product generating the same welcome text have equal `sendMail()` results. -/
theorem sendMail_determined_by_product_witness :
    WelcomeMailGenerator.sendMail =
      (Mailer.mk
        (MailTemplate.mk "Welcome aboard! Thanks for signing up!")).sendMail :=
  sendMail_determined_by_product.1 WelcomeMailGenerator
    (Mailer.mk (MailTemplate.mk "Welcome aboard! Thanks for signing up!")) rfl

/-- C6: `sendMail()` calls `generateMailTemplate()` and then `generate()`
on its result, and neither `sendMail()` nor any Product's `generate()`
changes the observable output state: both return their string and leave the
state exactly as it was. -/
theorem sendMail_generate_no_side_effects :
    ∀ (m : Mailer) (t : MailTemplate) (out : List String),
      m.sendMailS out = (m.sendMail, out) ∧
      t.generateS out = (t.generate, out) ∧
      (m.sendMailS out).1 =
        "Sending the following mail : " ++
          (m.generateMailTemplate.generateS out).1 :=
  fun _ _ _ => ⟨rfl, rfl, rfl⟩

/-- C7: every operation is total and terminates normally with a value:
for every Mailer and output state, `sendMailS` yields some string with the
state intact, `generateS` yields the product's text, and `clientCode`
terminates having written exactly that string; no error outcome exists. -/
theorem operations_total :
    ∀ (m : Mailer) (out : List String),
      ∃ s : String,
        m.sendMailS out = (s, out) ∧
        m.generateMailTemplate.generateS out =
          (m.generateMailTemplate.generate, out) ∧
        clientCode out m = out ++ [s] :=
  fun m _ => ⟨m.sendMail, rfl, rfl, rfl⟩

/-- C8: each concrete Creator's `generateMailTemplate()` takes no
parameters and always returns its one fixed Product variant:
`WelcomeMailGenerator` produces a `WelcomeMailTemplate` and
`NewsLetterMailGenerator` produces a `NewsLetterMailTemplate`. -/
theorem generateMailTemplate_fixed :
    WelcomeMailGenerator.generateMailTemplate = WelcomeMailTemplate ∧
    NewsLetterMailGenerator.generateMailTemplate = NewsLetterMailTemplate :=
  ⟨rfl, rfl⟩

/-- C9: the two Creator variants are observably distinct: their
`sendMail()` results differ, so the first and third lines of the entry
sequence's output are never equal. -/
theorem variants_observably_distinct :
    WelcomeMailGenerator.sendMail ≠ NewsLetterMailGenerator.sendMail ∧
    entryOutput[0]? ≠ entryOutput[2]? := by
  constructor <;> decide

/-- C10: every Mailer's `sendMail()` result begins with the fixed prefix
`Sending the following mail : `, hence is non-empty and never equal to the
divider line `---`. -/
theorem sendMail_prefix_nonempty_not_divider :
    ∀ m : Mailer,
      (∃ t : String,
        m.sendMail = "Sending the following mail : " ++ t) ∧
      m.sendMail ≠ "" ∧ m.sendMail ≠ "---" := by
  intro m
  have hpre : ("Sending the following mail : " : String).length = 29 := by
    decide
  have hfac : m.sendMail =
      "Sending the following mail : " ++ m.generateMailTemplate.generate :=
    rfl
  refine ⟨⟨m.generateMailTemplate.generate, rfl⟩, ?_, ?_⟩
  · intro h
    have hl := congrArg String.length h
    rw [hfac, String.length_append, hpre] at hl
    have h0 : ("" : String).length = 0 := by decide
    rw [h0] at hl
    omega
  · intro h
    have hl := congrArg String.length h
    rw [hfac, String.length_append, hpre] at hl
    have h3 : ("---" : String).length = 3 := by decide
    rw [h3] at hl
    omega
